import Mathlib

/-!
Verification development for the cloudflare-dns-failover engine.

The Go sources are shallowly embedded: machine `int` fields become `Int`,
strings stay `String`, and the two effectful collaborators (the Cloudflare
HTTP API and the SQLite store) are made explicit — provider responses are an
oracle (`CFEnv`) and every operation returns the new monitor row together
with the list of provider requests it issued and the notifications it sent.
Wall-clock bookkeeping (`LastCheck`) and GORM primary keys are omitted; no
verified property mentions them.
-/

/-- Cloudflare account credential entry (config.go, `AccountConfig`). -/
structure AccountConfig where
  name : String
  apiToken : String
  email : String
  apiKey : String
deriving DecidableEq

/-- The `Monitor` row (models.go).  Field `Type` is rendered `type_` because
`type` is reserved in Lean.  `LastCheck` (wall clock) and `ID`/`Schedules`
(persistence plumbing) are omitted. -/
structure Monitor where
  name : String
  accountName : String
  target : String
  type_ : String
  dnsType : String
  interval : Int
  timeout : Int
  retries : Int
  recoveryRetries : Int
  status : String
  failCount : Int
  succCount : Int
  currentIP : String
  backupIP : String
  originalIP : String
  cfZoneID : String
  cfRecordID : String
  cfDomain : String
deriving DecidableEq

/-- The `MonitorConfig` yaml/json input shape (models.go). -/
structure MonitorConfig where
  name : String
  account : String
  domain : String
  zoneID : String
  recordID : String
  type_ : String
  dnsType : String
  target : String
  originalIP : String
  backupIP : String
  interval : Int
  timeout : Int
  retries : Int
  recoveryRetries : Int
deriving DecidableEq

/-- `ApplyDefaults` (models.go lines 58-77). -/
def Monitor.applyDefaults (m : Monitor) : Monitor :=
  let m := if m.interval ≤ 0 then { m with interval := 60 } else m
  let m := if m.timeout ≤ 0 then { m with timeout := 5 } else m
  let m := if m.retries ≤ 0 then { m with retries := 3 } else m
  let m := if m.recoveryRetries ≤ 0 then { m with recoveryRetries := 2 } else m
  let m := if m.type_ = "" then { m with type_ := "ping" } else m
  if m.dnsType = "" then { m with dnsType := "A" } else m

/-- `MonitorConfig.ToMonitor` (models.go lines 79-100): copy the configuration
fields onto a zero-valued monitor, then apply defaults. -/
def MonitorConfig.toMonitor (mc : MonitorConfig) : Monitor :=
  let m : Monitor :=
    { name := mc.name
      accountName := mc.account
      target := mc.target
      type_ := mc.type_
      dnsType := mc.dnsType
      interval := mc.interval
      timeout := mc.timeout
      retries := mc.retries
      recoveryRetries := mc.recoveryRetries
      status := ""
      failCount := 0
      succCount := 0
      currentIP := ""
      backupIP := mc.backupIP
      originalIP := mc.originalIP
      cfZoneID := mc.zoneID
      cfRecordID := mc.recordID
      cfDomain := mc.domain }
  m.applyDefaults

/-- Authorization headers chosen by `newCloudflareRequest` (cloudflare.go
lines 38-43): a bearer token when `ApiToken` is non-empty, otherwise the
legacy `X-Auth-Email` plus `X-Auth-Key` pair. -/
inductive AuthCred where
  | bearer (token : String)
  | legacy (email : String) (key : String)
deriving DecidableEq

/-- An HTTP request issued to the Cloudflare API: the list-records lookup of
`FetchCloudflareRecordID` or the PATCH of `UpdateCloudflareDNS`. -/
inductive CFRequest where
  | listRecords (zoneID : String) (domain : String) (dnsType : String)
      (auth : AuthCred)
  | patchRecord (zoneID : String) (recordID : String) (content : String)
      (domain : String) (dnsType : String) (auth : AuthCred)
deriving DecidableEq

/-- Provider-side outcomes an operation can observe: the record id returned by
the list-records lookup (`none` models transport failure, API error, parse
failure or no matching record) and whether the PATCH returns a 2xx status. -/
structure CFEnv where
  fetchRecordID : Option String
  patchOk : Bool
deriving DecidableEq

/-- `GetAccountConfig` (cloudflare.go lines 19-30): first account whose name
matches, else a fallback to the first configured account, else none. -/
def getAccountConfig (accounts : List AccountConfig) (name : String) :
    Option AccountConfig :=
  match accounts.find? (fun a => a.name == name) with
  | some a => some a
  | none => accounts.head?

/-- Credential attached by `newCloudflareRequest` for a given account. -/
def authFor (acc : AccountConfig) : AuthCred :=
  if acc.apiToken ≠ "" then .bearer acc.apiToken
  else .legacy acc.email acc.apiKey

/-- `FetchCloudflareRecordID` (cloudflare.go lines 118-171): without an account
it fails issuing no request; otherwise it issues the list-records GET and
reports the id the provider returned (`none` on any failure). -/
def fetchCloudflareRecordID (accounts : List AccountConfig) (m : Monitor)
    (env : CFEnv) : Option String × List CFRequest :=
  match getAccountConfig accounts m.accountName with
  | none => (none, [])
  | some acc =>
      let dnsType := if m.dnsType = "" then "A" else m.dnsType
      (env.fetchRecordID,
       [CFRequest.listRecords m.cfZoneID m.cfDomain dnsType (authFor acc)])

/-- Result of `UpdateCloudflareDNS`: the boolean the Go function returns, the
monitor as left in memory (the record id may have been lazily filled in), and
the provider requests issued along the way. -/
structure DNSUpdateResult where
  ok : Bool
  monitor : Monitor
  requests : List CFRequest
deriving DecidableEq

/-- `UpdateCloudflareDNS` (cloudflare.go lines 71-115), the part reached once
a record id is present: bail out when no account is configured, otherwise
PATCH the record and report whether the provider answered 2xx.  `reqs` are
the requests already issued by the lazy record-id discovery. -/
def patchRecordStep (accounts : List AccountConfig) (m2 : Monitor)
    (targetIP : String) (env : CFEnv) (reqs : List CFRequest) :
    DNSUpdateResult :=
  match getAccountConfig accounts m2.accountName with
  | none => ⟨false, m2, reqs⟩
  | some acc =>
      let dnsType := if m2.dnsType = "" then "A" else m2.dnsType
      ⟨env.patchOk, m2,
       reqs ++ [CFRequest.patchRecord m2.cfZoneID m2.cfRecordID targetIP
         m2.cfDomain dnsType (authFor acc)]⟩

/-- `UpdateCloudflareDNS` (cloudflare.go lines 49-116): bail out on an empty
zone id or target ip; lazily discover the record id when missing (aborting on
discovery failure); then `patchRecordStep`. -/
def updateCloudflareDNS (accounts : List AccountConfig) (m : Monitor)
    (targetIP : String) (env : CFEnv) : DNSUpdateResult :=
  if m.cfZoneID = "" ∨ targetIP = "" then ⟨false, m, []⟩
  else if m.cfRecordID = "" then
    match fetchCloudflareRecordID accounts m env with
    | (some newID, reqs) =>
        if newID ≠ "" then
          patchRecordStep accounts { m with cfRecordID := newID } targetIP env
            reqs
        else ⟨false, m, reqs⟩
    | (none, reqs) => ⟨false, m, reqs⟩
  else patchRecordStep accounts m targetIP env []

/-- The recovery threshold computed inside `HandleSuccess` (monitor.go lines
290-296): `RecoveryRetries`, falling back to `Retries` and then to 3 when
zero. -/
def handleSuccessThreshold (m : Monitor) : Int :=
  if m.recoveryRetries = 0 then (if m.retries = 0 then 3 else m.retries)
  else m.recoveryRetries

/-- Outcome of one `HandleSuccess`/`HandleFailure` call: the mutated monitor,
the result of the `UpdateCloudflareDNS` call when one was made, and whether a
notification was sent. -/
structure HandleResult where
  monitor : Monitor
  dnsOk : Option Bool
  notified : Bool
deriving DecidableEq

/-- `HandleSuccess` (monitor.go lines 286-320). -/
def handleSuccess (accounts : List AccountConfig) (env : CFEnv) (m : Monitor) :
    HandleResult :=
  if m.status = "Down" then
    let m := { m with succCount := m.succCount + 1 }
    if m.succCount ≥ handleSuccessThreshold m then
      let r := updateCloudflareDNS accounts m m.originalIP env
      if r.ok then
        ⟨{ r.monitor with
           status := "Normal"
           succCount := 0
           currentIP := r.monitor.originalIP }, some true, true⟩
      else ⟨r.monitor, some false, false⟩
    else ⟨m, none, false⟩
  else ⟨{ m with failCount := 0 }, none, false⟩

/-- `HandleFailure` (monitor.go lines 322-345). -/
def handleFailure (accounts : List AccountConfig) (env : CFEnv) (m : Monitor) :
    HandleResult :=
  if m.status = "Normal" then
    let m := { m with failCount := m.failCount + 1 }
    if m.failCount ≥ m.retries then
      let r := updateCloudflareDNS accounts m m.backupIP env
      if r.ok then
        ⟨{ r.monitor with
           status := "Down"
           failCount := 0
           currentIP := r.monitor.backupIP }, some true, true⟩
      else ⟨r.monitor, some false, false⟩
    else ⟨m, none, false⟩
  else ⟨{ m with succCount := 0 }, none, false⟩

/-- One periodic check of `CheckMonitor` (monitor.go lines 161-202) once the
probe verdict `isUp` is known: the monitor is re-read from the store (modelled
by taking the current row as input), defaults are applied, then
`HandleSuccess` or `HandleFailure` runs.  The Select-restricted save persists
exactly the state fields of the returned monitor. -/
def checkMonitorStep (accounts : List AccountConfig) (env : CFEnv)
    (m : Monitor) (isUp : Bool) : HandleResult :=
  let m := m.applyDefaults
  if isUp then handleSuccess accounts env m else handleFailure accounts env m

/-- Outcome of one `ScheduledSwitch` firing: the monitor row, provider
requests, DNS call result (if a call was made), whether a notification was
sent and whether the state-field save was executed. -/
structure SwitchOutcome where
  monitor : Monitor
  requests : List CFRequest
  dnsOk : Option Bool
  notified : Bool
  saved : Bool
deriving DecidableEq

/-- `ScheduledSwitch` (monitor.go lines 136-159): a monitor currently Down is
skipped outright; otherwise the DNS is updated and only on success are
`CurrentIP` set to the schedule target and the counters reset and saved. -/
def scheduledSwitch (accounts : List AccountConfig) (env : CFEnv) (m : Monitor)
    (targetIP : String) : SwitchOutcome :=
  if m.status = "Down" then ⟨m, [], none, false, false⟩
  else
    let r := updateCloudflareDNS accounts m targetIP env
    if r.ok then
      ⟨{ r.monitor with
         currentIP := targetIP
         failCount := 0
         succCount := 0 },
       r.requests, some true, true, true⟩
    else ⟨r.monitor, r.requests, some false, false, false⟩

/-- Outcome of `RestoreMonitor`: the saved row, provider requests, the DNS
call result and whether the notification was sent. -/
structure RestoreOutcome where
  monitor : Monitor
  requests : List CFRequest
  dnsOk : Bool
  notified : Bool
deriving DecidableEq

/-- `RestoreMonitor` (api.go lines 216-237): status, counters and `CurrentIP`
are forced to their Normal values before the DNS call, the row is saved
unconditionally, and the notification is sent only when the update
succeeded. -/
def restoreMonitor (accounts : List AccountConfig) (env : CFEnv) (m : Monitor) :
    RestoreOutcome :=
  let m := { m with
             status := "Normal"
             failCount := 0
             succCount := 0
             currentIP := m.originalIP }
  let r := updateCloudflareDNS accounts m m.originalIP env
  ⟨r.monitor, r.requests, r.ok, r.ok⟩

/-- `CreateMonitor` (api.go lines 23-75) after input validation: the state is
initialized to Normal with `CurrentIP = OriginalIP`, then a record id is
discovered when missing and discoverable. -/
def createMonitor (accounts : List AccountConfig) (env : CFEnv)
    (input : MonitorConfig) : Monitor :=
  let monitor := input.toMonitor
  let monitor := { monitor with
                   currentIP := monitor.originalIP
                   status := "Normal" }
  if monitor.cfRecordID = "" ∧ monitor.cfZoneID ≠ "" ∧ monitor.cfDomain ≠ ""
  then
    match (fetchCloudflareRecordID accounts monitor env).1 with
    | some id => if id ≠ "" then { monitor with cfRecordID := id } else monitor
    | none => monitor
  else monitor

/-- `SeedMonitors` (database.go lines 435-508), not-found branch: a fresh row
with initial state. -/
def seedNewMonitor (configMonitor : Monitor) : Monitor :=
  { configMonitor with
    status := "Normal"
    currentIP := configMonitor.originalIP }

/-- `SeedMonitors` (database.go lines 435-508), existing-monitor branch: the
map-based `Updates` writes every listed column — including zero values — from
the config-derived monitor; status, counters and `CurrentIP` are untouched. -/
def seedExistingUpdate (existing : Monitor) (configMonitor : Monitor) :
    Monitor :=
  { existing with
    accountName := configMonitor.accountName
    target := configMonitor.target
    type_ := configMonitor.type_
    dnsType := configMonitor.dnsType
    interval := configMonitor.interval
    timeout := configMonitor.timeout
    retries := configMonitor.retries
    recoveryRetries := configMonitor.recoveryRetries
    originalIP := configMonitor.originalIP
    backupIP := configMonitor.backupIP
    cfZoneID := configMonitor.cfZoneID
    cfRecordID := configMonitor.cfRecordID
    cfDomain := configMonitor.cfDomain }

/-- `UpdateMonitor` (api.go lines 77-214), monitor-row part: configuration
fields are overwritten; a changed non-empty zone id or domain clears the
record id and triggers a re-fetch (whose outcome is `fetched`); an explicitly
supplied record id wins; finally defaults are applied and the row saved. -/
def updateMonitorApply (monitor : Monitor) (input : MonitorConfig)
    (fetched : Option String) : Monitor :=
  let monitor := { monitor with
    name := input.name
    accountName := input.account
    target := input.target
    type_ := input.type_
    dnsType := input.dnsType
    interval := input.interval
    timeout := input.timeout
    retries := input.retries
    recoveryRetries := input.recoveryRetries
    originalIP := input.originalIP
    backupIP := input.backupIP }
  let zoneChanged := input.zoneID ≠ "" ∧ input.zoneID ≠ monitor.cfZoneID
  let monitor := if input.zoneID ≠ "" ∧ input.zoneID ≠ monitor.cfZoneID then
    { monitor with cfZoneID := input.zoneID } else monitor
  let domainChanged := input.domain ≠ "" ∧ input.domain ≠ monitor.cfDomain
  let monitor := if input.domain ≠ "" ∧ input.domain ≠ monitor.cfDomain then
    { monitor with cfDomain := input.domain } else monitor
  let shouldFetchID := (zoneChanged ∨ domainChanged) ∧ input.recordID = ""
  let monitor :=
    if input.recordID ≠ "" then { monitor with cfRecordID := input.recordID }
    else if zoneChanged ∨ domainChanged then { monitor with cfRecordID := "" }
    else monitor
  let monitor :=
    if shouldFetchID ∧ monitor.cfRecordID = "" then
      match fetched with
      | some id => if id ≠ "" then { monitor with cfRecordID := id }
                   else monitor
      | none => monitor
    else monitor
  monitor.applyDefaults

/-- The probe `CheckMonitor` decides to run (monitor.go lines 170-187):
an ICMP ping of a host or an HTTP GET of a url with an optional forced ip. -/
inductive ProbeAction where
  | ping (host : String) (timeout : Int)
  | http (url : String) (timeout : Int) (forceIP : String)
deriving DecidableEq

/-- Probe-target selection in `CheckMonitor` (monitor.go lines 170-187): ping
probes target `OriginalIP` (falling back to `Target` when empty); http and
https probes pass `Target` as the url and `OriginalIP` as the forced ip;
unknown types fall back to ping. -/
def checkMonitorProbe (m : Monitor) : ProbeAction :=
  let m := m.applyDefaults
  let checkTarget := if m.originalIP = "" then m.target else m.originalIP
  match m.type_ with
  | "ping" => .ping checkTarget m.timeout
  | "http" => .http m.target m.timeout m.originalIP
  | "https" => .http m.target m.timeout m.originalIP
  | _ => .ping checkTarget m.timeout

/-- Url normalization in `CheckHTTP` (monitor.go lines 204-207): prefix
`http://` when the target does not already start with `http`. -/
def normalizeHTTPTarget (t : String) : String :=
  if t.startsWith "http" then t else "http://" ++ t

/-- The `DialContext` override installed by `getHTTPClient` (monitor.go lines
52-68): with a non-empty forced ip the TCP connection is dialed to that ip
while keeping the port of the requested address; otherwise the address is
dialed unchanged. -/
def dialPeer (forceIP : String) (host : String) (port : String) :
    String × String :=
  if forceIP = "" then (host, port) else (forceIP, port)

/-- Behaviour one ping subprocess would have when never killed: its natural
running time in milliseconds and its exit verdict. -/
structure PingAttemptEnv where
  duration : Nat
  ok : Bool
deriving DecidableEq

/-- One `cmd.Run` under the shared context of `CheckPing`: if the natural
duration fits before the deadline the process finishes with its natural
verdict, otherwise the context kills it (a kill reports failure). -/
def runPingAttempt (deadline : Nat) (now : Nat) (a : PingAttemptEnv) :
    Nat × Bool :=
  if now + a.duration ≤ deadline then (now + a.duration, a.ok)
  else (max now deadline, false)

/-- The retry loop of `CheckPing` (monitor.go lines 249-282): up to `rem`
attempts starting at attempt index `idx` and time `now`, stopping at the
first success, sleeping 500 ms after each failure.  Returns the overall
verdict and the log of executed attempts as (start, finish, verdict). -/
def pingLoop (deadline : Nat) (att : Nat → PingAttemptEnv) :
    Nat → Nat → Nat → Bool × List (Nat × Nat × Bool)
  | 0, _, _ => (false, [])
  | rem + 1, idx, now =>
      let r := runPingAttempt deadline now (att idx)
      if r.2 then (true, [(now, r.1, true)])
      else
        let rest := pingLoop deadline att rem (idx + 1) (r.1 + 500)
        (rest.1, (now, r.1, false) :: rest.2)

/-- `CheckPing` (monitor.go lines 239-284): a single context deadline of
`timeout + 2` seconds is created at entry and shared by up to three
sequential single-packet attempts. -/
def checkPing (timeout : Int) (att : Nat → PingAttemptEnv) :
    Bool × List (Nat × Nat × Bool) :=
  pingLoop ((timeout + 2).toNat * 1000) att 3 0 0

/-- Number of leading elements of a list equal to `b`. -/
def leadCount (b : Bool) : List Bool → Nat
  | [] => 0
  | x :: xs => if x = b then leadCount b xs + 1 else 0

/-- Number of trailing elements of a list equal to `b`: the length of the
current run of consecutive `b`-observations. -/
def trailCount (b : Bool) (l : List Bool) : Nat :=
  leadCount b l.reverse

/-- Engine trace: fold `checkMonitorStep` over a list of probe verdicts, each
with the provider behaviour observed on that tick. -/
def runChecks (accounts : List AccountConfig) (m : Monitor) :
    List (Bool × CFEnv) → Monitor
  | [] => m
  | (u, env) :: rest =>
      runChecks accounts (checkMonitorStep accounts env m u).monitor rest

/-! ### Basic lemmas about the embedded operations -/

theorem Monitor.applyDefaults_eq (m : Monitor) :
    m.applyDefaults =
      { m with
        interval := if m.interval ≤ 0 then 60 else m.interval
        timeout := if m.timeout ≤ 0 then 5 else m.timeout
        retries := if m.retries ≤ 0 then 3 else m.retries
        recoveryRetries :=
          if m.recoveryRetries ≤ 0 then 2 else m.recoveryRetries
        type_ := if m.type_ = "" then "ping" else m.type_
        dnsType := if m.dnsType = "" then "A" else m.dnsType } := by
  unfold Monitor.applyDefaults
  by_cases h1 : m.interval ≤ 0 <;> by_cases h2 : m.timeout ≤ 0 <;>
    by_cases h3 : m.retries ≤ 0 <;> by_cases h4 : m.recoveryRetries ≤ 0 <;>
    by_cases h5 : m.type_ = "" <;> by_cases h6 : m.dnsType = "" <;>
    simp [h1, h2, h3, h4, h5, h6]

@[simp] theorem Monitor.applyDefaults_status (m : Monitor) :
    m.applyDefaults.status = m.status := by
  rw [Monitor.applyDefaults_eq]

@[simp] theorem Monitor.applyDefaults_failCount (m : Monitor) :
    m.applyDefaults.failCount = m.failCount := by
  rw [Monitor.applyDefaults_eq]

@[simp] theorem Monitor.applyDefaults_succCount (m : Monitor) :
    m.applyDefaults.succCount = m.succCount := by
  rw [Monitor.applyDefaults_eq]

@[simp] theorem Monitor.applyDefaults_currentIP (m : Monitor) :
    m.applyDefaults.currentIP = m.currentIP := by
  rw [Monitor.applyDefaults_eq]

@[simp] theorem Monitor.applyDefaults_originalIP (m : Monitor) :
    m.applyDefaults.originalIP = m.originalIP := by
  rw [Monitor.applyDefaults_eq]

@[simp] theorem Monitor.applyDefaults_backupIP (m : Monitor) :
    m.applyDefaults.backupIP = m.backupIP := by
  rw [Monitor.applyDefaults_eq]

@[simp] theorem Monitor.applyDefaults_cfZoneID (m : Monitor) :
    m.applyDefaults.cfZoneID = m.cfZoneID := by
  rw [Monitor.applyDefaults_eq]

@[simp] theorem Monitor.applyDefaults_cfRecordID (m : Monitor) :
    m.applyDefaults.cfRecordID = m.cfRecordID := by
  rw [Monitor.applyDefaults_eq]

@[simp] theorem Monitor.applyDefaults_cfDomain (m : Monitor) :
    m.applyDefaults.cfDomain = m.cfDomain := by
  rw [Monitor.applyDefaults_eq]

@[simp] theorem Monitor.applyDefaults_accountName (m : Monitor) :
    m.applyDefaults.accountName = m.accountName := by
  rw [Monitor.applyDefaults_eq]

@[simp] theorem Monitor.applyDefaults_target (m : Monitor) :
    m.applyDefaults.target = m.target := by
  rw [Monitor.applyDefaults_eq]

theorem Monitor.applyDefaults_retries (m : Monitor) :
    m.applyDefaults.retries = if m.retries ≤ 0 then 3 else m.retries := by
  rw [Monitor.applyDefaults_eq]

theorem Monitor.applyDefaults_recoveryRetries (m : Monitor) :
    m.applyDefaults.recoveryRetries =
      if m.recoveryRetries ≤ 0 then 2 else m.recoveryRetries := by
  rw [Monitor.applyDefaults_eq]

theorem Monitor.applyDefaults_timeout (m : Monitor) :
    m.applyDefaults.timeout = if m.timeout ≤ 0 then 5 else m.timeout := by
  rw [Monitor.applyDefaults_eq]

theorem Monitor.applyDefaults_type (m : Monitor) :
    m.applyDefaults.type_ = if m.type_ = "" then "ping" else m.type_ := by
  rw [Monitor.applyDefaults_eq]

@[simp] theorem patchRecordStep_monitor (accounts : List AccountConfig)
    (m2 : Monitor) (targetIP : String) (env : CFEnv) (reqs : List CFRequest) :
    (patchRecordStep accounts m2 targetIP env reqs).monitor = m2 := by
  unfold patchRecordStep
  cases getAccountConfig accounts m2.accountName <;> rfl

theorem updateCloudflareDNS_monitor_shape (accounts : List AccountConfig)
    (m : Monitor) (targetIP : String) (env : CFEnv) :
    ∃ rid, (updateCloudflareDNS accounts m targetIP env).monitor =
      { m with cfRecordID := rid } := by
  unfold updateCloudflareDNS
  split
  · exact ⟨m.cfRecordID, rfl⟩
  split
  · split
    · rename_i newID reqs heq
      split
      · exact ⟨newID, by simp⟩
      · exact ⟨m.cfRecordID, rfl⟩
    · exact ⟨m.cfRecordID, rfl⟩
  · exact ⟨m.cfRecordID, by simp⟩

@[simp] theorem updateCloudflareDNS_monitor_status
    (accounts : List AccountConfig) (m : Monitor) (targetIP : String)
    (env : CFEnv) :
    (updateCloudflareDNS accounts m targetIP env).monitor.status = m.status := by
  obtain ⟨rid, h⟩ := updateCloudflareDNS_monitor_shape accounts m targetIP env
  rw [h]

@[simp] theorem updateCloudflareDNS_monitor_failCount
    (accounts : List AccountConfig) (m : Monitor) (targetIP : String)
    (env : CFEnv) :
    (updateCloudflareDNS accounts m targetIP env).monitor.failCount =
      m.failCount := by
  obtain ⟨rid, h⟩ := updateCloudflareDNS_monitor_shape accounts m targetIP env
  rw [h]

@[simp] theorem updateCloudflareDNS_monitor_succCount
    (accounts : List AccountConfig) (m : Monitor) (targetIP : String)
    (env : CFEnv) :
    (updateCloudflareDNS accounts m targetIP env).monitor.succCount =
      m.succCount := by
  obtain ⟨rid, h⟩ := updateCloudflareDNS_monitor_shape accounts m targetIP env
  rw [h]

@[simp] theorem updateCloudflareDNS_monitor_currentIP
    (accounts : List AccountConfig) (m : Monitor) (targetIP : String)
    (env : CFEnv) :
    (updateCloudflareDNS accounts m targetIP env).monitor.currentIP =
      m.currentIP := by
  obtain ⟨rid, h⟩ := updateCloudflareDNS_monitor_shape accounts m targetIP env
  rw [h]

@[simp] theorem updateCloudflareDNS_monitor_originalIP
    (accounts : List AccountConfig) (m : Monitor) (targetIP : String)
    (env : CFEnv) :
    (updateCloudflareDNS accounts m targetIP env).monitor.originalIP =
      m.originalIP := by
  obtain ⟨rid, h⟩ := updateCloudflareDNS_monitor_shape accounts m targetIP env
  rw [h]

@[simp] theorem updateCloudflareDNS_monitor_backupIP
    (accounts : List AccountConfig) (m : Monitor) (targetIP : String)
    (env : CFEnv) :
    (updateCloudflareDNS accounts m targetIP env).monitor.backupIP =
      m.backupIP := by
  obtain ⟨rid, h⟩ := updateCloudflareDNS_monitor_shape accounts m targetIP env
  rw [h]

@[simp] theorem updateCloudflareDNS_monitor_retries
    (accounts : List AccountConfig) (m : Monitor) (targetIP : String)
    (env : CFEnv) :
    (updateCloudflareDNS accounts m targetIP env).monitor.retries =
      m.retries := by
  obtain ⟨rid, h⟩ := updateCloudflareDNS_monitor_shape accounts m targetIP env
  rw [h]

@[simp] theorem updateCloudflareDNS_monitor_recoveryRetries
    (accounts : List AccountConfig) (m : Monitor) (targetIP : String)
    (env : CFEnv) :
    (updateCloudflareDNS accounts m targetIP env).monitor.recoveryRetries =
      m.recoveryRetries := by
  obtain ⟨rid, h⟩ := updateCloudflareDNS_monitor_shape accounts m targetIP env
  rw [h]

@[simp] theorem updateCloudflareDNS_monitor_cfZoneID
    (accounts : List AccountConfig) (m : Monitor) (targetIP : String)
    (env : CFEnv) :
    (updateCloudflareDNS accounts m targetIP env).monitor.cfZoneID =
      m.cfZoneID := by
  obtain ⟨rid, h⟩ := updateCloudflareDNS_monitor_shape accounts m targetIP env
  rw [h]

@[simp] theorem updateCloudflareDNS_monitor_cfDomain
    (accounts : List AccountConfig) (m : Monitor) (targetIP : String)
    (env : CFEnv) :
    (updateCloudflareDNS accounts m targetIP env).monitor.cfDomain =
      m.cfDomain := by
  obtain ⟨rid, h⟩ := updateCloudflareDNS_monitor_shape accounts m targetIP env
  rw [h]

@[simp] theorem updateCloudflareDNS_monitor_accountName
    (accounts : List AccountConfig) (m : Monitor) (targetIP : String)
    (env : CFEnv) :
    (updateCloudflareDNS accounts m targetIP env).monitor.accountName =
      m.accountName := by
  obtain ⟨rid, h⟩ := updateCloudflareDNS_monitor_shape accounts m targetIP env
  rw [h]

theorem updateCloudflareDNS_monitor_of_recordID_ne
    (accounts : List AccountConfig) (m : Monitor) (targetIP : String)
    (env : CFEnv) (h : m.cfRecordID ≠ "") :
    (updateCloudflareDNS accounts m targetIP env).monitor = m := by
  unfold updateCloudflareDNS
  split
  · rfl
  · simp [h]

@[simp] theorem trailCount_nil (b : Bool) : trailCount b [] = 0 := rfl

theorem trailCount_append_same (b : Bool) (l : List Bool) :
    trailCount b (l ++ [b]) = trailCount b l + 1 := by
  simp [trailCount, leadCount]

theorem trailCount_append_ne {x b : Bool} (h : x ≠ b) (l : List Bool) :
    trailCount b (l ++ [x]) = 0 := by
  simp [trailCount, leadCount, h]

/-- The counter-history invariant of the check state machine: each counter is
bounded by the length of the current run of same-side observations, and the
counter for the opposite transition is zero (spec §3 invariants). -/
def checkInv (m : Monitor) (hist : List Bool) : Prop :=
  (m.status = "Normal" →
    m.failCount ≤ (trailCount false hist : Int) ∧ m.succCount = 0)
  ∧ (m.status = "Down" →
    m.succCount ≤ (trailCount true hist : Int) ∧ m.failCount = 0)

theorem handleFailure_inv (accounts : List AccountConfig) (env : CFEnv)
    (m : Monitor) (hist : List Bool)
    (hN : m.status = "Normal" →
      m.failCount ≤ (trailCount false hist : Int) ∧ m.succCount = 0)
    (hD : m.status = "Down" →
      m.succCount ≤ (trailCount true hist : Int) ∧ m.failCount = 0) :
    checkInv (handleFailure accounts env m).monitor (hist ++ [false]) := by
  unfold checkInv
  rw [trailCount_append_same, trailCount_append_ne (by simp)]
  simp only [handleFailure]
  split_ifs with h1 h2 h3
  · constructor
    · intro hst; simp at hst
    · intro _
      refine ⟨?_, by simp⟩
      simp [(hN h1).2]
  · constructor
    · intro _
      have := (hN h1).1
      constructor
      · simp; omega
      · simpa using (hN h1).2
    · intro hst
      simp at hst
      rw [hst] at h1; simp at h1
  · constructor
    · intro _
      have := (hN h1).1
      constructor
      · simp; omega
      · simpa using (hN h1).2
    · intro hst
      simp at hst
      rw [hst] at h1; simp at h1
  · constructor
    · intro hst
      simp at hst
      exact absurd hst h1
    · intro hst
      simp at hst
      exact ⟨by simp, by simpa using (hD hst).2⟩

theorem handleSuccess_inv (accounts : List AccountConfig) (env : CFEnv)
    (m : Monitor) (hist : List Bool)
    (hN : m.status = "Normal" →
      m.failCount ≤ (trailCount false hist : Int) ∧ m.succCount = 0)
    (hD : m.status = "Down" →
      m.succCount ≤ (trailCount true hist : Int) ∧ m.failCount = 0) :
    checkInv (handleSuccess accounts env m).monitor (hist ++ [true]) := by
  unfold checkInv
  rw [trailCount_append_same, trailCount_append_ne (by simp)]
  simp only [handleSuccess]
  split_ifs with h1 h2 h3
  · constructor
    · intro _
      refine ⟨?_, by simp⟩
      simp [(hD h1).2]
    · intro hst; simp at hst
  · constructor
    · intro hst
      simp at hst
      rw [hst] at h1; simp at h1
    · intro _
      have := (hD h1).1
      constructor
      · simp; omega
      · simpa using (hD h1).2
  · constructor
    · intro hst
      simp at hst
      rw [hst] at h1; simp at h1
    · intro _
      have := (hD h1).1
      constructor
      · simp; omega
      · simpa using (hD h1).2
  · constructor
    · intro hst
      simp at hst
      exact ⟨by simp, by simpa using (hN hst).2⟩
    · intro hst
      simp at hst
      exact absurd hst h1

theorem checkInv_step (accounts : List AccountConfig) (env : CFEnv)
    (m : Monitor) (u : Bool) (hist : List Bool) (hI : checkInv m hist) :
    checkInv (checkMonitorStep accounts env m u).monitor (hist ++ [u]) := by
  have hdN : m.applyDefaults.status = "Normal" →
      m.applyDefaults.failCount ≤ (trailCount false hist : Int) ∧
        m.applyDefaults.succCount = 0 := by
    simpa using hI.1
  have hdD : m.applyDefaults.status = "Down" →
      m.applyDefaults.succCount ≤ (trailCount true hist : Int) ∧
        m.applyDefaults.failCount = 0 := by
    simpa using hI.2
  cases u
  · simpa [checkMonitorStep] using
      handleFailure_inv accounts env m.applyDefaults hist hdN hdD
  · simpa [checkMonitorStep] using
      handleSuccess_inv accounts env m.applyDefaults hist hdN hdD

theorem checkInv_runChecks (accounts : List AccountConfig)
    (inputs : List (Bool × CFEnv)) :
    ∀ (m : Monitor) (hist : List Bool), checkInv m hist →
      checkInv (runChecks accounts m inputs)
        (hist ++ inputs.map Prod.fst) := by
  induction inputs with
  | nil => intro m hist h; simpa [runChecks] using h
  | cons p rest ih =>
      intro m hist h
      obtain ⟨u, env⟩ := p
      have h2 := ih (checkMonitorStep accounts env m u).monitor (hist ++ [u])
        (checkInv_step accounts env m u hist h)
      simpa [runChecks, List.append_assoc] using h2


theorem handleFailure_retries (accounts : List AccountConfig) (env : CFEnv)
    (m : Monitor) :
    (handleFailure accounts env m).monitor.retries = m.retries := by
  simp only [handleFailure]
  split_ifs <;> simp

theorem handleSuccess_retries (accounts : List AccountConfig) (env : CFEnv)
    (m : Monitor) :
    (handleSuccess accounts env m).monitor.retries = m.retries := by
  simp only [handleSuccess]
  split_ifs <;> simp

theorem handleFailure_recoveryRetries (accounts : List AccountConfig)
    (env : CFEnv) (m : Monitor) :
    (handleFailure accounts env m).monitor.recoveryRetries =
      m.recoveryRetries := by
  simp only [handleFailure]
  split_ifs <;> simp

theorem handleSuccess_recoveryRetries (accounts : List AccountConfig)
    (env : CFEnv) (m : Monitor) :
    (handleSuccess accounts env m).monitor.recoveryRetries =
      m.recoveryRetries := by
  simp only [handleSuccess]
  split_ifs <;> simp

theorem checkMonitorStep_retries (accounts : List AccountConfig) (env : CFEnv)
    (m : Monitor) (u : Bool) :
    (checkMonitorStep accounts env m u).monitor.retries =
      if m.retries ≤ 0 then 3 else m.retries := by
  rw [← Monitor.applyDefaults_retries]
  cases u
  · exact handleFailure_retries accounts env m.applyDefaults
  · exact handleSuccess_retries accounts env m.applyDefaults

theorem checkMonitorStep_recoveryRetries (accounts : List AccountConfig)
    (env : CFEnv) (m : Monitor) (u : Bool) :
    (checkMonitorStep accounts env m u).monitor.recoveryRetries =
      if m.recoveryRetries ≤ 0 then 2 else m.recoveryRetries := by
  rw [← Monitor.applyDefaults_recoveryRetries]
  cases u
  · exact handleFailure_recoveryRetries accounts env m.applyDefaults
  · exact handleSuccess_recoveryRetries accounts env m.applyDefaults

theorem runChecks_thresholds (accounts : List AccountConfig)
    (inputs : List (Bool × CFEnv)) :
    ∀ m : Monitor, 1 ≤ m.retries → 1 ≤ m.recoveryRetries →
      (runChecks accounts m inputs).retries = m.retries ∧
      (runChecks accounts m inputs).recoveryRetries = m.recoveryRetries := by
  induction inputs with
  | nil => intro m _ _; exact ⟨rfl, rfl⟩
  | cons p rest ih =>
      intro m h1 h2
      obtain ⟨u, env⟩ := p
      have hr : (checkMonitorStep accounts env m u).monitor.retries =
          m.retries := by
        rw [checkMonitorStep_retries, if_neg (by omega)]
      have hrr : (checkMonitorStep accounts env m u).monitor.recoveryRetries =
          m.recoveryRetries := by
        rw [checkMonitorStep_recoveryRetries, if_neg (by omega)]
      have h3 := ih (checkMonitorStep accounts env m u).monitor
        (by rw [hr]; exact h1) (by rw [hrr]; exact h2)
      simp only [runChecks]
      exact ⟨by rw [h3.1, hr], by rw [h3.2, hrr]⟩

theorem handleSuccess_status_of_not_down (accounts : List AccountConfig)
    (env : CFEnv) (m : Monitor) (h : m.status ≠ "Down") :
    (handleSuccess accounts env m).monitor.status = m.status := by
  simp only [handleSuccess]
  rw [if_neg h]

theorem handleFailure_status_of_not_normal (accounts : List AccountConfig)
    (env : CFEnv) (m : Monitor) (h : m.status ≠ "Normal") :
    (handleFailure accounts env m).monitor.status = m.status := by
  simp only [handleFailure]
  rw [if_neg h]

@[simp] theorem handleSuccessThreshold_succCount (m : Monitor) (x : Int) :
    handleSuccessThreshold { m with succCount := x } =
      handleSuccessThreshold m := rfl

theorem handleFailure_to_down (accounts : List AccountConfig) (env : CFEnv)
    (m : Monitor) (hm : m.status = "Normal")
    (h : (handleFailure accounts env m).monitor.status = "Down") :
    m.retries ≤ m.failCount + 1 := by
  simp only [handleFailure] at h
  split_ifs at h with h1 h2
  · omega
  · simp [hm] at h
  · simp [hm] at h

theorem handleSuccess_to_normal (accounts : List AccountConfig) (env : CFEnv)
    (m : Monitor) (hm : m.status = "Down")
    (h : (handleSuccess accounts env m).monitor.status = "Normal") :
    handleSuccessThreshold m ≤ m.succCount + 1 := by
  simp only [handleSuccess] at h
  split_ifs at h with h1 h2
  · simp at h1; omega
  · simp [hm] at h
  · simp [hm] at h

theorem handleFailure_originalIP (accounts : List AccountConfig) (env : CFEnv)
    (m : Monitor) :
    (handleFailure accounts env m).monitor.originalIP = m.originalIP := by
  simp only [handleFailure]
  split_ifs <;> simp

theorem handleSuccess_originalIP (accounts : List AccountConfig) (env : CFEnv)
    (m : Monitor) :
    (handleSuccess accounts env m).monitor.originalIP = m.originalIP := by
  simp only [handleSuccess]
  split_ifs <;> simp

theorem handleFailure_backupIP (accounts : List AccountConfig) (env : CFEnv)
    (m : Monitor) :
    (handleFailure accounts env m).monitor.backupIP = m.backupIP := by
  simp only [handleFailure]
  split_ifs <;> simp

theorem handleSuccess_backupIP (accounts : List AccountConfig) (env : CFEnv)
    (m : Monitor) :
    (handleSuccess accounts env m).monitor.backupIP = m.backupIP := by
  simp only [handleSuccess]
  split_ifs <;> simp

theorem handleFailure_currentIP_cases (accounts : List AccountConfig)
    (env : CFEnv) (m : Monitor) :
    (handleFailure accounts env m).monitor.currentIP = m.currentIP ∨
    (handleFailure accounts env m).monitor.currentIP = m.backupIP := by
  simp only [handleFailure]
  split_ifs <;> simp

theorem handleSuccess_currentIP_cases (accounts : List AccountConfig)
    (env : CFEnv) (m : Monitor) :
    (handleSuccess accounts env m).monitor.currentIP = m.currentIP ∨
    (handleSuccess accounts env m).monitor.currentIP = m.originalIP := by
  simp only [handleSuccess]
  split_ifs <;> simp

theorem checkMonitorStep_originalIP (accounts : List AccountConfig)
    (env : CFEnv) (m : Monitor) (u : Bool) :
    (checkMonitorStep accounts env m u).monitor.originalIP = m.originalIP := by
  cases u
  · rw [show (checkMonitorStep accounts env m false).monitor =
        (handleFailure accounts env m.applyDefaults).monitor from rfl,
      handleFailure_originalIP]
    simp
  · rw [show (checkMonitorStep accounts env m true).monitor =
        (handleSuccess accounts env m.applyDefaults).monitor from rfl,
      handleSuccess_originalIP]
    simp

theorem checkMonitorStep_backupIP (accounts : List AccountConfig)
    (env : CFEnv) (m : Monitor) (u : Bool) :
    (checkMonitorStep accounts env m u).monitor.backupIP = m.backupIP := by
  cases u
  · rw [show (checkMonitorStep accounts env m false).monitor =
        (handleFailure accounts env m.applyDefaults).monitor from rfl,
      handleFailure_backupIP]
    simp
  · rw [show (checkMonitorStep accounts env m true).monitor =
        (handleSuccess accounts env m.applyDefaults).monitor from rfl,
      handleSuccess_backupIP]
    simp

theorem checkMonitorStep_currentIP_cases (accounts : List AccountConfig)
    (env : CFEnv) (m : Monitor) (u : Bool) :
    (checkMonitorStep accounts env m u).monitor.currentIP = m.currentIP ∨
    (checkMonitorStep accounts env m u).monitor.currentIP = m.originalIP ∨
    (checkMonitorStep accounts env m u).monitor.currentIP = m.backupIP := by
  cases u
  · rcases handleFailure_currentIP_cases accounts env m.applyDefaults with
      h | h
    · exact Or.inl (by simpa using h)
    · exact Or.inr (Or.inr (by simpa using h))
  · rcases handleSuccess_currentIP_cases accounts env m.applyDefaults with
      h | h
    · exact Or.inl (by simpa using h)
    · exact Or.inr (Or.inl (by simpa using h))

theorem updateCloudflareDNS_eq_of_guard (accounts : List AccountConfig)
    (m : Monitor) (targetIP : String) (env : CFEnv)
    (h : m.cfZoneID = "" ∨ targetIP = "") :
    updateCloudflareDNS accounts m targetIP env = ⟨false, m, []⟩ := by
  unfold updateCloudflareDNS
  rw [if_pos h]

theorem handleFailure_ack (accounts : List AccountConfig) (env : CFEnv)
    (m : Monitor) :
    ((handleFailure accounts env m).monitor.status ≠ m.status ↔
      (handleFailure accounts env m).dnsOk = some true)
    ∧ ((handleFailure accounts env m).monitor.currentIP ≠ m.currentIP →
      (handleFailure accounts env m).dnsOk = some true) := by
  simp only [handleFailure]
  split_ifs with h1 h2 h3
  · refine ⟨?_, fun _ => rfl⟩
    simp [h1]
  · constructor
    · simp
    · simp
  · constructor
    · simp
    · simp
  · constructor
    · simp
    · simp

theorem handleSuccess_ack (accounts : List AccountConfig) (env : CFEnv)
    (m : Monitor) :
    ((handleSuccess accounts env m).monitor.status ≠ m.status ↔
      (handleSuccess accounts env m).dnsOk = some true)
    ∧ ((handleSuccess accounts env m).monitor.currentIP ≠ m.currentIP →
      (handleSuccess accounts env m).dnsOk = some true) := by
  simp only [handleSuccess]
  split_ifs with h1 h2 h3
  · refine ⟨?_, fun _ => rfl⟩
    simp [h1]
  · constructor
    · simp
    · simp
  · constructor
    · simp
    · simp
  · constructor
    · simp
    · simp

theorem updateCloudflareDNS_monitor_cfRecordID_of_ne
    (accounts : List AccountConfig) (m : Monitor) (targetIP : String)
    (env : CFEnv) (h : m.cfRecordID ≠ "") :
    (updateCloudflareDNS accounts m targetIP env).monitor.cfRecordID =
      m.cfRecordID := by
  rw [updateCloudflareDNS_monitor_of_recordID_ne accounts m targetIP env h]

theorem handleFailure_cfRecordID (accounts : List AccountConfig) (env : CFEnv)
    (m : Monitor) (h : m.cfRecordID ≠ "") :
    (handleFailure accounts env m).monitor.cfRecordID = m.cfRecordID := by
  simp only [handleFailure]
  split_ifs with h1 h2 h3 <;>
    simp [updateCloudflareDNS_monitor_cfRecordID_of_ne, h]

theorem handleSuccess_cfRecordID (accounts : List AccountConfig) (env : CFEnv)
    (m : Monitor) (h : m.cfRecordID ≠ "") :
    (handleSuccess accounts env m).monitor.cfRecordID = m.cfRecordID := by
  simp only [handleSuccess]
  split_ifs with h1 h2 h3 <;>
    simp [updateCloudflareDNS_monitor_cfRecordID_of_ne, h]

theorem handleFailure_of_zone_empty (accounts : List AccountConfig)
    (env : CFEnv) (m : Monitor) (h : m.cfZoneID = "") :
    (handleFailure accounts env m).monitor.status = m.status ∧
    (handleFailure accounts env m).monitor.currentIP = m.currentIP := by
  simp only [handleFailure]
  split_ifs with h1 h2 h3
  · exfalso
    have hg := updateCloudflareDNS_eq_of_guard accounts
      { m with failCount := m.failCount + 1 } m.backupIP env (Or.inl h)
    rw [hg] at h3
    simp at h3
  · simp
  · simp
  · simp

theorem handleSuccess_of_zone_empty (accounts : List AccountConfig)
    (env : CFEnv) (m : Monitor) (h : m.cfZoneID = "") :
    (handleSuccess accounts env m).monitor.status = m.status ∧
    (handleSuccess accounts env m).monitor.currentIP = m.currentIP := by
  simp only [handleSuccess]
  split_ifs with h1 h2 h3
  · exfalso
    have hg := updateCloudflareDNS_eq_of_guard accounts
      { m with succCount := m.succCount + 1 } m.originalIP env (Or.inl h)
    rw [hg] at h3
    simp at h3
  · simp
  · simp
  · simp

theorem scheduledSwitch_status (accounts : List AccountConfig) (env : CFEnv)
    (m : Monitor) (targetIP : String) :
    (scheduledSwitch accounts env m targetIP).monitor.status = m.status := by
  simp only [scheduledSwitch]
  split_ifs <;> simp

theorem scheduledSwitch_ip_ack (accounts : List AccountConfig) (env : CFEnv)
    (m : Monitor) (targetIP : String) :
    (scheduledSwitch accounts env m targetIP).monitor.currentIP ≠
        m.currentIP →
      (scheduledSwitch accounts env m targetIP).dnsOk = some true := by
  simp only [scheduledSwitch]
  split_ifs <;> simp

theorem scheduledSwitch_currentIP_cases (accounts : List AccountConfig)
    (env : CFEnv) (m : Monitor) (targetIP : String) :
    (scheduledSwitch accounts env m targetIP).monitor.currentIP =
        m.currentIP ∨
    (scheduledSwitch accounts env m targetIP).monitor.currentIP = targetIP := by
  simp only [scheduledSwitch]
  split_ifs <;> simp

theorem scheduledSwitch_originalIP (accounts : List AccountConfig)
    (env : CFEnv) (m : Monitor) (targetIP : String) :
    (scheduledSwitch accounts env m targetIP).monitor.originalIP =
      m.originalIP := by
  simp only [scheduledSwitch]
  split_ifs <;> simp

theorem scheduledSwitch_backupIP (accounts : List AccountConfig)
    (env : CFEnv) (m : Monitor) (targetIP : String) :
    (scheduledSwitch accounts env m targetIP).monitor.backupIP =
      m.backupIP := by
  simp only [scheduledSwitch]
  split_ifs <;> simp

theorem scheduledSwitch_cfRecordID (accounts : List AccountConfig)
    (env : CFEnv) (m : Monitor) (targetIP : String) (h : m.cfRecordID ≠ "") :
    (scheduledSwitch accounts env m targetIP).monitor.cfRecordID =
      m.cfRecordID := by
  simp only [scheduledSwitch]
  split_ifs <;> simp [updateCloudflareDNS_monitor_cfRecordID_of_ne, h]

theorem restoreMonitor_status (accounts : List AccountConfig) (env : CFEnv)
    (m : Monitor) :
    (restoreMonitor accounts env m).monitor.status = "Normal" := by
  simp [restoreMonitor]

theorem restoreMonitor_currentIP (accounts : List AccountConfig) (env : CFEnv)
    (m : Monitor) :
    (restoreMonitor accounts env m).monitor.currentIP = m.originalIP := by
  simp [restoreMonitor]

theorem restoreMonitor_originalIP (accounts : List AccountConfig) (env : CFEnv)
    (m : Monitor) :
    (restoreMonitor accounts env m).monitor.originalIP = m.originalIP := by
  simp [restoreMonitor]

theorem restoreMonitor_cfRecordID (accounts : List AccountConfig) (env : CFEnv)
    (m : Monitor) (h : m.cfRecordID ≠ "") :
    (restoreMonitor accounts env m).monitor.cfRecordID = m.cfRecordID := by
  simp [restoreMonitor, updateCloudflareDNS_monitor_cfRecordID_of_ne, h]

theorem createMonitor_currentIP (accounts : List AccountConfig) (env : CFEnv)
    (input : MonitorConfig) :
    (createMonitor accounts env input).currentIP =
      (createMonitor accounts env input).originalIP := by
  simp only [createMonitor]
  split
  · split
    · split_ifs <;> rfl
    · rfl
  · rfl

/-- The credential attached to a provider request. -/
def CFRequest.cred : CFRequest → AuthCred
  | .listRecords _ _ _ a => a
  | .patchRecord _ _ _ _ _ a => a

theorem getAccountConfig_nil (name : String) :
    getAccountConfig [] name = none := rfl

theorem updateCloudflareDNS_empty_accounts (m : Monitor) (targetIP : String)
    (env : CFEnv) :
    updateCloudflareDNS [] m targetIP env = ⟨false, m, []⟩ := by
  unfold updateCloudflareDNS
  split_ifs <;> rfl

theorem fetchCloudflareRecordID_eq (accounts : List AccountConfig)
    (m : Monitor) (env : CFEnv) (acc : AccountConfig)
    (hga : getAccountConfig accounts m.accountName = some acc) :
    fetchCloudflareRecordID accounts m env =
      (env.fetchRecordID,
       [CFRequest.listRecords m.cfZoneID m.cfDomain
         (if m.dnsType = "" then "A" else m.dnsType) (authFor acc)]) := by
  unfold fetchCloudflareRecordID
  rw [hga]

theorem patchRecordStep_requests (accounts : List AccountConfig) (m2 : Monitor)
    (targetIP : String) (env : CFEnv) (reqs : List CFRequest)
    (acc : AccountConfig)
    (hga : getAccountConfig accounts m2.accountName = some acc) :
    (patchRecordStep accounts m2 targetIP env reqs).requests =
      reqs ++ [CFRequest.patchRecord m2.cfZoneID m2.cfRecordID targetIP
        m2.cfDomain (if m2.dnsType = "" then "A" else m2.dnsType)
        (authFor acc)] := by
  unfold patchRecordStep
  rw [hga]

theorem updateCloudflareDNS_requests_cred (accounts : List AccountConfig)
    (m : Monitor) (targetIP : String) (env : CFEnv) (acc : AccountConfig)
    (hga : getAccountConfig accounts m.accountName = some acc) :
    ∀ req ∈ (updateCloudflareDNS accounts m targetIP env).requests,
      req.cred = authFor acc := by
  intro req hreq
  rcases henv : env.fetchRecordID with _ | newID <;>
    simp only [updateCloudflareDNS,
      fetchCloudflareRecordID_eq accounts m env acc hga, henv] at hreq <;>
    split_ifs at hreq
  all_goals
    first
      | exact absurd hreq (List.not_mem_nil req)
      | (simp at hreq; subst hreq; rfl)
      | (simp only [patchRecordStep, hga] at hreq;
         simp at hreq;
         first
           | (subst hreq; rfl)
           | (rcases hreq with rfl | rfl <;> rfl))

theorem runPingAttempt_le (D now : Nat) (a : PingAttemptEnv) :
    (runPingAttempt D now a).1 ≤ max now D := by
  unfold runPingAttempt
  split_ifs with h
  · exact le_trans h (le_max_right now D)
  · exact le_refl _

theorem pingLoop_length (D : Nat) (att : Nat → PingAttemptEnv) :
    ∀ rem idx now, ((pingLoop D att rem idx now).2).length ≤ rem := by
  intro rem
  induction rem with
  | zero => intro idx now; simp [pingLoop]
  | succ n ih =>
      intro idx now
      simp only [pingLoop]
      split
      · simp
      · simpa using ih (idx + 1) _

theorem pingLoop_head_start (D : Nat) (att : Nat → PingAttemptEnv) :
    ∀ rem idx now e l', (pingLoop D att rem idx now).2 = e :: l' →
      e.1 = now := by
  intro rem
  cases rem with
  | zero => intro idx now e l' h; simp [pingLoop] at h
  | succ n =>
      intro idx now e l' h
      simp only [pingLoop] at h
      split at h
      · simp at h
        rw [← h.1]
      · simp at h
        rw [← h.1]

theorem pingLoop_chain (D : Nat) (att : Nat → PingAttemptEnv) :
    ∀ rem idx now, List.Chain' (fun a b => b.1 = a.2.1 + 500)
      (pingLoop D att rem idx now).2 := by
  intro rem
  induction rem with
  | zero => intro idx now; simp [pingLoop]
  | succ n ih =>
      intro idx now
      simp only [pingLoop]
      split
      · simp
      · rw [List.chain'_cons']
        refine ⟨?_, ih (idx + 1) _⟩
        intro b hb
        rcases hl : (pingLoop D att n (idx + 1)
            ((runPingAttempt D now (att idx)).1 + 500)).2 with _ | ⟨x, xs⟩
        · rw [hl] at hb; simp at hb
        · rw [hl] at hb
          simp at hb
          rw [← hb]
          simpa using pingLoop_head_start D att n (idx + 1) _ x xs hl

theorem pingLoop_dropLast_false (D : Nat) (att : Nat → PingAttemptEnv) :
    ∀ rem idx now e, e ∈ ((pingLoop D att rem idx now).2).dropLast →
      e.2.2 = false := by
  intro rem
  induction rem with
  | zero => intro idx now e he; simp [pingLoop] at he
  | succ n ih =>
      intro idx now e he
      simp only [pingLoop] at he
      split at he
      · simp at he
      · rcases hl : (pingLoop D att n (idx + 1)
            ((runPingAttempt D now (att idx)).1 + 500)).2 with _ | ⟨x, xs⟩
        · rw [hl] at he; simp at he
        · rw [hl, List.dropLast_cons₂] at he
          rcases List.mem_cons.mp he with rfl | he2
          · rfl
          · exact ih (idx + 1) _ e (by rw [hl]; exact he2)

theorem pingLoop_res_iff (D : Nat) (att : Nat → PingAttemptEnv) :
    ∀ rem idx now, ((pingLoop D att rem idx now).1 = true ↔
      ∃ e ∈ (pingLoop D att rem idx now).2, e.2.2 = true) := by
  intro rem
  induction rem with
  | zero => intro idx now; simp [pingLoop]
  | succ n ih =>
      intro idx now
      simp only [pingLoop]
      split
      · simp
      · simp [ih (idx + 1) _]

theorem pingLoop_deadline (D : Nat) (att : Nat → PingAttemptEnv) :
    ∀ rem idx now e, e ∈ (pingLoop D att rem idx now).2 →
      e.2.1 ≤ max e.1 D := by
  intro rem
  induction rem with
  | zero => intro idx now e he; simp [pingLoop] at he
  | succ n ih =>
      intro idx now e he
      simp only [pingLoop] at he
      split at he
      · simp at he
        rw [he]
        simpa using runPingAttempt_le D now (att idx)
      · rcases List.mem_cons.mp he with rfl | he2
        · simpa using runPingAttempt_le D now (att idx)
        · exact ih (idx + 1) _ e he2

/-! ### Concrete fixtures used to instantiate the claims -/

/-- A fully configured monitor used to instantiate claims on concrete
inputs. -/
def sampleMonitor : Monitor :=
  { name := "m1"
    accountName := "default"
    target := "1.1.1.1"
    type_ := "ping"
    dnsType := "A"
    interval := 60
    timeout := 5
    retries := 3
    recoveryRetries := 2
    status := "Normal"
    failCount := 0
    succCount := 0
    currentIP := "1.1.1.1"
    backupIP := "2.2.2.2"
    originalIP := "1.1.1.1"
    cfZoneID := "zone1"
    cfRecordID := "rec1"
    cfDomain := "www.example.com" }

/-- One configured account with a bearer token. -/
def sampleAccounts : List AccountConfig :=
  [{ name := "default", apiToken := "token-1", email := "", apiKey := "" }]

/-- A provider behaviour answering the PATCH with 2xx and the record lookup
with nothing. -/
def sampleEnv : CFEnv := { fetchRecordID := none, patchOk := true }

/-- The sample monitor while failed over. -/
def downMonitor : Monitor :=
  { sampleMonitor with
    status := "Down"
    currentIP := "2.2.2.2" }

/-- A config/admin input matching `sampleMonitor` but with no record id
given. -/
def sampleConfig : MonitorConfig :=
  { name := "m1"
    account := "default"
    domain := "www.example.com"
    zoneID := "zone1"
    recordID := ""
    type_ := "ping"
    dnsType := "A"
    target := "1.1.1.1"
    originalIP := "1.1.1.1"
    backupIP := "2.2.2.2"
    interval := 60
    timeout := 5
    retries := 3
    recoveryRetries := 2 }

/-! ### The claims -/

/-- C3: hysteresis.  For a freshly initialized monitor (status Normal, both
counters zero, positive thresholds) fed any sequence of sequentially
delivered check results: a transition Normal → Down can only occur on a down
observation, and only after at least `retries` (failure_threshold)
consecutive down results since the last up result; dually a transition
Down → Normal can only occur on an up observation, and only after at least
`recoveryRetries` (recovery_threshold) consecutive up results since the last
down result. -/
theorem C3_hysteresis (accounts : List AccountConfig)
    (m0 : Monitor) (inputs : List (Bool × CFEnv)) (u : Bool) (env : CFEnv)
    (hst : m0.status = "Normal") (hf : m0.failCount = 0)
    (hs : m0.succCount = 0) (hr : 1 ≤ m0.retries)
    (hrr : 1 ≤ m0.recoveryRetries) :
    ((runChecks accounts m0 inputs).status = "Normal" →
      (checkMonitorStep accounts env (runChecks accounts m0 inputs)
          u).monitor.status = "Down" →
      u = false ∧
        m0.retries ≤ (trailCount false (inputs.map Prod.fst ++ [u]) : Int))
    ∧ ((runChecks accounts m0 inputs).status = "Down" →
      (checkMonitorStep accounts env (runChecks accounts m0 inputs)
          u).monitor.status = "Normal" →
      u = true ∧
        m0.recoveryRetries ≤
          (trailCount true (inputs.map Prod.fst ++ [u]) : Int)) := by
  have hInit : checkInv m0 [] := by
    constructor
    · intro _
      exact ⟨by simp [hf], hs⟩
    · intro hd
      rw [hst] at hd
      simp at hd
  have hInv := checkInv_runChecks accounts inputs m0 [] hInit
  rw [List.nil_append] at hInv
  have hth := runChecks_thresholds accounts inputs m0 hr hrr
  set mi := runChecks accounts m0 inputs with hmi
  have hms : mi.retries = m0.retries := hth.1
  have hms2 : mi.recoveryRetries = m0.recoveryRetries := hth.2
  constructor
  · intro hN hDown
    cases u with
    | true =>
        exfalso
        have hnd : mi.applyDefaults.status ≠ "Down" := by simp [hN]
        have heq : (checkMonitorStep accounts env mi true).monitor.status =
            mi.applyDefaults.status :=
          handleSuccess_status_of_not_down accounts env mi.applyDefaults hnd
        rw [heq] at hDown
        simp [hN] at hDown
    | false =>
        refine ⟨rfl, ?_⟩
        have hm' : mi.applyDefaults.status = "Normal" := by simp [hN]
        have hD' : (handleFailure accounts env
            mi.applyDefaults).monitor.status = "Down" := hDown
        have hb := handleFailure_to_down accounts env mi.applyDefaults hm' hD'
        rw [Monitor.applyDefaults_retries, Monitor.applyDefaults_failCount,
          if_neg (by omega)] at hb
        have hcount := (hInv.1 hN).1
        rw [trailCount_append_same]
        push_cast
        omega
  · intro hD hNorm
    cases u with
    | false =>
        exfalso
        have hnn : mi.applyDefaults.status ≠ "Normal" := by simp [hD]
        have heq : (checkMonitorStep accounts env mi false).monitor.status =
            mi.applyDefaults.status :=
          handleFailure_status_of_not_normal accounts env mi.applyDefaults hnn
        rw [heq] at hNorm
        simp [hD] at hNorm
    | true =>
        refine ⟨rfl, ?_⟩
        have hm' : mi.applyDefaults.status = "Down" := by simp [hD]
        have hN' : (handleSuccess accounts env
            mi.applyDefaults).monitor.status = "Normal" := hNorm
        have hb := handleSuccess_to_normal accounts env mi.applyDefaults hm'
          hN'
        have hrrd : mi.applyDefaults.recoveryRetries = mi.recoveryRetries := by
          rw [Monitor.applyDefaults_recoveryRetries, if_neg (by omega)]
        have hthr : handleSuccessThreshold mi.applyDefaults =
            mi.recoveryRetries := by
          unfold handleSuccessThreshold
          rw [hrrd, if_neg (by omega)]
        rw [hthr, Monitor.applyDefaults_succCount] at hb
        have hcount := (hInv.2 hD).1
        rw [trailCount_append_same]
        push_cast
        omega

/-- The sample monitor with a failure threshold of 2, used to exercise the
hysteresis theorem on a concrete two-failure trace. -/
def c3Monitor : Monitor := { sampleMonitor with retries := 2 }

/-- Witness for C3: the hysteresis theorem applied to a concrete monitor and
the concrete trace down, down, whose second down triggers the failover. -/
theorem C3_witness :
    false = false ∧ c3Monitor.retries ≤
      (trailCount false ([(false, sampleEnv)].map Prod.fst ++ [false]) :
        Int) :=
  (C3_hysteresis sampleAccounts c3Monitor [(false, sampleEnv)] false sampleEnv
    rfl rfl rfl (by decide) (by decide)).1 (by decide) (by decide)

/-- C7: a scheduled-rotation firing whose monitor is currently Down does
nothing: the monitor row is untouched, no provider request is issued, no DNS
call is made, no notification is sent, and no save is executed. -/
theorem C7_rotation_suppressed (accounts : List AccountConfig) (env : CFEnv)
    (m : Monitor) (targetIP : String) (h : m.status = "Down") :
    scheduledSwitch accounts env m targetIP =
      { monitor := m, requests := [], dnsOk := none, notified := false,
        saved := false } := by
  unfold scheduledSwitch
  rw [if_pos h]

/-- Witness for C7 at a concrete Down monitor. -/
theorem C7_witness :
    scheduledSwitch sampleAccounts sampleEnv downMonitor "3.3.3.3" =
      { monitor := downMonitor, requests := [], dnsOk := none,
        notified := false, saved := false } :=
  C7_rotation_suppressed sampleAccounts sampleEnv downMonitor "3.3.3.3" rfl

/-- C8: the ICMP probe runs at most three sequential attempts, returns up on
the first successful attempt (every executed attempt before the last failed),
consecutive attempts start 500 ms after the previous one finished, and every
attempt is killed no later than the shared context deadline of
timeout + 2 seconds from probe start. -/
theorem C8_ping_discipline (timeout : Int) (att : Nat → PingAttemptEnv) :
    ((checkPing timeout att).2).length ≤ 3
    ∧ ((checkPing timeout att).1 = true ↔
        ∃ e ∈ (checkPing timeout att).2, e.2.2 = true)
    ∧ (∀ e ∈ ((checkPing timeout att).2).dropLast, e.2.2 = false)
    ∧ List.Chain' (fun a b => b.1 = a.2.1 + 500) (checkPing timeout att).2
    ∧ (∀ e ∈ (checkPing timeout att).2,
        e.2.1 ≤ max e.1 ((timeout + 2).toNat * 1000)) := by
  refine ⟨pingLoop_length _ att 3 0 0, pingLoop_res_iff _ att 3 0 0,
    fun e he => pingLoop_dropLast_false _ att 3 0 0 e he,
    pingLoop_chain _ att 3 0 0,
    fun e he => pingLoop_deadline _ att 3 0 0 e he⟩

/-- A ping-subprocess behaviour where every attempt fails after 100 ms. -/
def pingEnvAllFail : Nat → PingAttemptEnv :=
  fun _ => { duration := 100, ok := false }

/-- Witness for C8 at a concrete timeout and subprocess behaviour. -/
theorem C8_witness : ((checkPing 5 pingEnvAllFail).2).length ≤ 3 :=
  (C8_ping_discipline 5 pingEnvAllFail).1

/-- The sample monitor pointing at an account key that matches no configured
account. -/
def mismatchedMonitor : Monitor := { sampleMonitor with accountName := "absent" }

/-- C9 is refuted: with a non-empty credential set and an account key that
matches none of its entries, `GetAccountConfig` falls back to the first
account, so the DNS mutation succeeds and its request is issued under the
first account's bearer token rather than failing with a NoAccount error. -/
theorem C9_counterexample :
    (sampleAccounts.find? (fun a => a.name == "absent") = none)
    ∧ getAccountConfig sampleAccounts "absent" =
        some { name := "default", apiToken := "token-1", email := "",
               apiKey := "" }
    ∧ (updateCloudflareDNS sampleAccounts mismatchedMonitor "9.9.9.9"
        sampleEnv).ok = true
    ∧ (updateCloudflareDNS sampleAccounts mismatchedMonitor "9.9.9.9"
        sampleEnv).requests =
      [CFRequest.patchRecord "zone1" "rec1" "9.9.9.9" "www.example.com" "A"
        (AuthCred.bearer "token-1")] := by
  decide

/-- C9 (amended): every provider request of a DNS mutation carries the
credential of the account selected for the monitor's account key — the first
name match when one exists, otherwise the first configured account — with a
bearer token taking precedence over the legacy email + global-key pair; the
call fails without issuing any request only when the credential set is
empty. -/
theorem C9_credential_selection (accounts : List AccountConfig) (m : Monitor)
    (targetIP : String) (env : CFEnv) :
    (accounts = [] →
      updateCloudflareDNS accounts m targetIP env = ⟨false, m, []⟩)
    ∧ (∀ acc, accounts.find? (fun a => a.name == m.accountName) = some acc →
      ∀ req ∈ (updateCloudflareDNS accounts m targetIP env).requests,
        req.cred = authFor acc)
    ∧ (∀ acc0, accounts.find? (fun a => a.name == m.accountName) = none →
      accounts.head? = some acc0 →
      ∀ req ∈ (updateCloudflareDNS accounts m targetIP env).requests,
        req.cred = authFor acc0)
    ∧ (∀ acc : AccountConfig,
        (acc.apiToken ≠ "" → authFor acc = AuthCred.bearer acc.apiToken)
        ∧ (acc.apiToken = "" →
            authFor acc = AuthCred.legacy acc.email acc.apiKey)) := by
  refine ⟨?_, ?_, ?_, ?_⟩
  · intro h
    subst h
    exact updateCloudflareDNS_empty_accounts m targetIP env
  · intro acc hfind
    exact updateCloudflareDNS_requests_cred accounts m targetIP env acc
      (by simp [getAccountConfig, hfind])
  · intro acc0 hfind hhead
    exact updateCloudflareDNS_requests_cred accounts m targetIP env acc0
      (by simp [getAccountConfig, hfind, hhead])
  · intro acc
    constructor
    · intro h
      simp [authFor, h]
    · intro h
      simp [authFor, h]

/-- Witness for the amended C9: the empty credential set makes the mutation
fail with no request. -/
theorem C9_witness :
    updateCloudflareDNS [] sampleMonitor "9.9.9.9" sampleEnv =
      ⟨false, sampleMonitor, []⟩ :=
  (C9_credential_selection [] sampleMonitor "9.9.9.9" sampleEnv).1 rfl

theorem scheduledSwitch_of_guard (accounts : List AccountConfig) (env : CFEnv)
    (m : Monitor) (targetIP : String)
    (h : m.cfZoneID = "" ∨ targetIP = "") :
    (scheduledSwitch accounts env m targetIP).monitor = m ∧
    (scheduledSwitch accounts env m targetIP).notified = false ∧
    (scheduledSwitch accounts env m targetIP).saved = false := by
  simp only [scheduledSwitch]
  split_ifs with h1 h2
  · exact ⟨rfl, rfl, rfl⟩
  · exfalso
    rw [updateCloudflareDNS_eq_of_guard accounts m targetIP env h] at h2
    simp at h2
  · rw [updateCloudflareDNS_eq_of_guard accounts m targetIP env h]
    exact ⟨rfl, rfl, rfl⟩

/-- C10: with an empty zone id, or an empty target ip, `UpdateCloudflareDNS`
returns failure immediately, issues no provider request and leaves the
monitor untouched; consequently a monitor with an empty zone id can never
change status or current_ip through a periodic check, and a scheduled
rotation for it never mutates the row or notifies. -/
theorem C10_empty_zone_or_target (accounts : List AccountConfig) (env : CFEnv)
    (m : Monitor) (isUp : Bool) (targetIP : String)
    (h : m.cfZoneID = "" ∨ targetIP = "") :
    (updateCloudflareDNS accounts m targetIP env = ⟨false, m, []⟩)
    ∧ (m.cfZoneID = "" →
        (checkMonitorStep accounts env m isUp).monitor.status = m.status
        ∧ (checkMonitorStep accounts env m isUp).monitor.currentIP =
            m.currentIP
        ∧ (scheduledSwitch accounts env m targetIP).monitor.currentIP =
            m.currentIP
        ∧ (scheduledSwitch accounts env m targetIP).notified = false) := by
  refine ⟨updateCloudflareDNS_eq_of_guard accounts m targetIP env h, ?_⟩
  intro hz
  have hz' : m.applyDefaults.cfZoneID = "" := by simpa using hz
  refine ⟨?_, ?_, ?_, ?_⟩
  · cases isUp
    · simpa [checkMonitorStep] using
        (handleFailure_of_zone_empty accounts env m.applyDefaults hz').1
    · simpa [checkMonitorStep] using
        (handleSuccess_of_zone_empty accounts env m.applyDefaults hz').1
  · cases isUp
    · simpa [checkMonitorStep] using
        (handleFailure_of_zone_empty accounts env m.applyDefaults hz').2
    · simpa [checkMonitorStep] using
        (handleSuccess_of_zone_empty accounts env m.applyDefaults hz').2
  · rw [(scheduledSwitch_of_guard accounts env m targetIP (Or.inl hz)).1]
  · exact (scheduledSwitch_of_guard accounts env m targetIP (Or.inl hz)).2.1

/-- The sample monitor with its zone id removed. -/
def noZoneMonitor : Monitor := { sampleMonitor with cfZoneID := "" }

/-- Witness for C10 at a concrete monitor with an empty zone id. -/
theorem C10_witness :
    updateCloudflareDNS sampleAccounts noZoneMonitor "2.2.2.2" sampleEnv =
      ⟨false, noZoneMonitor, []⟩ :=
  (C10_empty_zone_or_target sampleAccounts sampleEnv noZoneMonitor true
    "2.2.2.2" (Or.inl rfl)).1

/-- C1 is refuted: a scheduled rotation on a Normal monitor with a successful
DNS update sets current_ip to the schedule's target ip, which lies outside
{original_ip, backup_ip}. -/
theorem C1_counterexample :
    (scheduledSwitch sampleAccounts sampleEnv sampleMonitor
        "3.3.3.3").monitor.currentIP ≠
      (scheduledSwitch sampleAccounts sampleEnv sampleMonitor
        "3.3.3.3").monitor.originalIP
    ∧ (scheduledSwitch sampleAccounts sampleEnv sampleMonitor
        "3.3.3.3").monitor.currentIP ≠
      (scheduledSwitch sampleAccounts sampleEnv sampleMonitor
        "3.3.3.3").monitor.backupIP
    ∧ sampleMonitor.status = "Normal" := by
  decide

/-- C1 (amended): after creation and seeding current_ip equals original_ip;
periodic check handling and manual restore preserve membership of current_ip
in {original_ip, backup_ip}; a scheduled rotation preserves it only up to the
schedule's target ip, i.e. afterwards current_ip lies in {original_ip,
backup_ip, target_ip}. -/
theorem C1_current_ip_amended (accounts : List AccountConfig) (env : CFEnv)
    (m : Monitor) (isUp : Bool) (targetIP : String) (input : MonitorConfig)
    (h : m.currentIP = m.originalIP ∨ m.currentIP = m.backupIP) :
    ((createMonitor accounts env input).currentIP =
        (createMonitor accounts env input).originalIP)
    ∧ ((seedNewMonitor m).currentIP = (seedNewMonitor m).originalIP)
    ∧ ((checkMonitorStep accounts env m isUp).monitor.currentIP =
          (checkMonitorStep accounts env m isUp).monitor.originalIP ∨
        (checkMonitorStep accounts env m isUp).monitor.currentIP =
          (checkMonitorStep accounts env m isUp).monitor.backupIP)
    ∧ ((restoreMonitor accounts env m).monitor.currentIP =
        (restoreMonitor accounts env m).monitor.originalIP)
    ∧ ((scheduledSwitch accounts env m targetIP).monitor.currentIP =
          (scheduledSwitch accounts env m targetIP).monitor.originalIP ∨
        (scheduledSwitch accounts env m targetIP).monitor.currentIP =
          (scheduledSwitch accounts env m targetIP).monitor.backupIP ∨
        (scheduledSwitch accounts env m targetIP).monitor.currentIP =
          targetIP) := by
  refine ⟨createMonitor_currentIP accounts env input, rfl, ?_, ?_, ?_⟩
  · rw [checkMonitorStep_originalIP, checkMonitorStep_backupIP]
    rcases checkMonitorStep_currentIP_cases accounts env m isUp with
      hc | hc | hc
    · rw [hc]
      exact h
    · exact Or.inl (by rw [hc])
    · exact Or.inr (by rw [hc])
  · rw [restoreMonitor_currentIP, restoreMonitor_originalIP]
  · rw [scheduledSwitch_originalIP, scheduledSwitch_backupIP]
    rcases scheduledSwitch_currentIP_cases accounts env m targetIP with
      hc | hc
    · rw [hc]
      exact h.imp id Or.inl
    · exact Or.inr (Or.inr (by rw [hc]))

/-- Witness for the amended C1: the manual-restore conjunct at a concrete
monitor. -/
theorem C1_witness :
    (restoreMonitor sampleAccounts sampleEnv sampleMonitor).monitor.currentIP =
      (restoreMonitor sampleAccounts sampleEnv
        sampleMonitor).monitor.originalIP :=
  (C1_current_ip_amended sampleAccounts sampleEnv sampleMonitor true "3.3.3.3"
    sampleConfig (Or.inl rfl)).2.2.2.1

/-- The sample monitor failed over with its zone id removed, so a DNS update
must fail without a provider request. -/
def downNoZoneMonitor : Monitor :=
  { sampleMonitor with
    status := "Down"
    currentIP := "2.2.2.2"
    cfZoneID := "" }

/-- C2 is refuted: the manual restore changes status (Down to Normal) and
current_ip (backup back to primary) even though the DNS update failed and no
provider request was even issued. -/
theorem C2_counterexample :
    (restoreMonitor sampleAccounts sampleEnv downNoZoneMonitor).dnsOk = false
    ∧ (restoreMonitor sampleAccounts sampleEnv downNoZoneMonitor).requests = []
    ∧ (restoreMonitor sampleAccounts sampleEnv
        downNoZoneMonitor).monitor.status ≠ downNoZoneMonitor.status
    ∧ (restoreMonitor sampleAccounts sampleEnv
        downNoZoneMonitor).monitor.currentIP ≠
      downNoZoneMonitor.currentIP := by
  decide

/-- C2 (amended): for periodic-check handling, status changes exactly when
the immediately preceding DNS update returned success, and current_ip changes
only then; a scheduled rotation never changes status and changes current_ip
only on DNS success; the manual restore, however, forces status := Normal and
current_ip := original_ip unconditionally, and only its notification is gated
on the DNS result. -/
theorem C2_no_switch_without_ack (accounts : List AccountConfig) (env : CFEnv)
    (m : Monitor) (isUp : Bool) (targetIP : String) :
    ((checkMonitorStep accounts env m isUp).monitor.status ≠ m.status ↔
      (checkMonitorStep accounts env m isUp).dnsOk = some true)
    ∧ ((checkMonitorStep accounts env m isUp).monitor.currentIP ≠
          m.currentIP →
      (checkMonitorStep accounts env m isUp).dnsOk = some true)
    ∧ ((scheduledSwitch accounts env m targetIP).monitor.status = m.status)
    ∧ ((scheduledSwitch accounts env m targetIP).monitor.currentIP ≠
          m.currentIP →
      (scheduledSwitch accounts env m targetIP).dnsOk = some true)
    ∧ ((restoreMonitor accounts env m).monitor.status = "Normal")
    ∧ ((restoreMonitor accounts env m).monitor.currentIP = m.originalIP)
    ∧ ((restoreMonitor accounts env m).notified =
        (restoreMonitor accounts env m).dnsOk) := by
  refine ⟨?_, ?_, scheduledSwitch_status accounts env m targetIP,
    scheduledSwitch_ip_ack accounts env m targetIP,
    restoreMonitor_status accounts env m,
    restoreMonitor_currentIP accounts env m, rfl⟩
  · cases isUp
    · simpa [checkMonitorStep] using
        (handleFailure_ack accounts env m.applyDefaults).1
    · simpa [checkMonitorStep] using
        (handleSuccess_ack accounts env m.applyDefaults).1
  · cases isUp
    · simpa [checkMonitorStep] using
        (handleFailure_ack accounts env m.applyDefaults).2
    · simpa [checkMonitorStep] using
        (handleSuccess_ack accounts env m.applyDefaults).2

/-- Witness for the amended C2: the rotation of a Down monitor keeps its
status. -/
theorem C2_witness :
    (scheduledSwitch sampleAccounts sampleEnv downMonitor
        "3.3.3.3").monitor.status = downMonitor.status :=
  (C2_no_switch_without_ack sampleAccounts sampleEnv downMonitor true
    "3.3.3.3").2.2.1

/-- A Down monitor with a zero configured recovery threshold and a failure
threshold of 5, one success into its recovery streak. -/
def c4Monitor : Monitor :=
  { sampleMonitor with
    status := "Down"
    currentIP := "2.2.2.2"
    succCount := 1
    retries := 5
    recoveryRetries := 0 }

/-- C4 is refuted: with recovery_threshold = 0 and failure_threshold = 5, the
engine's effective recovery threshold is 2 (ApplyDefaults substitutes 2
before HandleSuccess runs), so the monitor recovers on its second consecutive
success — not after failure_threshold = 5 successes as the claim states. -/
theorem C4_counterexample :
    c4Monitor.recoveryRetries = 0
    ∧ c4Monitor.retries = 5
    ∧ handleSuccessThreshold c4Monitor.applyDefaults = 2
    ∧ (checkMonitorStep sampleAccounts sampleEnv c4Monitor
        true).monitor.status = "Normal"
    ∧ c4Monitor.succCount + 1 < c4Monitor.retries := by
  decide

/-- C4 (amended): because CheckMonitor applies ApplyDefaults before
HandleSuccess on every tick, a non-positive configured recovery threshold is
replaced by 2 — not by failure_threshold, nor by 3 — before the threshold
comparison; the fallback cascade inside HandleSuccess is unreachable on the
engine path. -/
theorem C4_effective_recovery_threshold (m : Monitor) :
    handleSuccessThreshold m.applyDefaults =
      if m.recoveryRetries ≤ 0 then 2 else m.recoveryRetries := by
  unfold handleSuccessThreshold
  rw [Monitor.applyDefaults_recoveryRetries]
  by_cases hp : m.recoveryRetries ≤ 0
  · simp [hp]
  · simp [hp, show ¬(m.recoveryRetries = 0) from by omega]

/-- C6: probes always target the primary. A ping probe targets original_ip,
falling back to check_target only when original_ip is empty; an http/https
probe carries the configured url (so the request's hostname is preserved)
together with original_ip as the forced ip, and the dial override connects to
original_ip while keeping the requested port; the probe choice is independent
of status, in particular it is the same while Down. -/
theorem C6_probe_pinning (m : Monitor) :
    (m.applyDefaults.type_ = "ping" →
      checkMonitorProbe m = ProbeAction.ping
        (if m.originalIP = "" then m.target else m.originalIP)
        m.applyDefaults.timeout)
    ∧ (m.applyDefaults.type_ = "http" ∨ m.applyDefaults.type_ = "https" →
      checkMonitorProbe m = ProbeAction.http m.target m.applyDefaults.timeout
        m.originalIP)
    ∧ (m.originalIP ≠ "" → ∀ host port, dialPeer m.originalIP host port =
        (m.originalIP, port))
    ∧ (∀ s, checkMonitorProbe { m with status := s } =
        checkMonitorProbe m) := by
  refine ⟨?_, ?_, ?_, ?_⟩
  · intro ht
    simp [checkMonitorProbe, ht]
  · rintro (ht | ht) <;> simp [checkMonitorProbe, ht]
  · intro h host port
    simp [dialPeer, h]
  · intro s
    have h1 : ({ m with status := s } : Monitor).applyDefaults =
        { m.applyDefaults with status := s } := by
      rw [Monitor.applyDefaults_eq, Monitor.applyDefaults_eq]
    unfold checkMonitorProbe
    rw [h1]

/-- The sample monitor probed over https against a hostname url. -/
def httpsMonitor : Monitor :=
  { sampleMonitor with
    type_ := "https"
    target := "https://example.com" }

/-- Witness for C6: the https conjunct at a concrete monitor. -/
theorem C6_witness :
    checkMonitorProbe httpsMonitor = ProbeAction.http httpsMonitor.target
      httpsMonitor.applyDefaults.timeout httpsMonitor.originalIP :=
  (C6_probe_pinning httpsMonitor).2.1 (by decide)

/-- C5 is refuted: seeding an already-existing monitor whose config entry
carries no cf_record_id overwrites — and thus clears — a previously
discovered non-empty record handle, although neither zone id, hostname, nor
record type was reconfigured. -/
theorem C5_counterexample :
    sampleMonitor.cfRecordID ≠ ""
    ∧ (seedExistingUpdate sampleMonitor sampleConfig.toMonitor).cfRecordID = ""
    ∧ sampleConfig.toMonitor.cfZoneID = sampleMonitor.cfZoneID
    ∧ sampleConfig.toMonitor.cfDomain = sampleMonitor.cfDomain
    ∧ sampleConfig.toMonitor.dnsType = sampleMonitor.dnsType := by
  decide

/-- C5 (amended): engine state saves (periodic check, scheduled rotation,
manual restore) never clear a non-empty record handle, and an admin update
clears it only when a non-empty zone id or domain different from the stored
one was supplied (a record-type change alone never clears it); startup
seeding of an existing monitor, however, unconditionally overwrites the
handle with the config file's cf_record_id value — clearing it whenever the
config omits one — as the counterexample shows. -/
theorem C5_record_handle_amended (accounts : List AccountConfig) (env : CFEnv)
    (m : Monitor) (isUp : Bool) (targetIP : String) (input : MonitorConfig)
    (fetched : Option String) (h : m.cfRecordID ≠ "") :
    ((checkMonitorStep accounts env m isUp).monitor.cfRecordID = m.cfRecordID)
    ∧ ((scheduledSwitch accounts env m targetIP).monitor.cfRecordID =
        m.cfRecordID)
    ∧ ((restoreMonitor accounts env m).monitor.cfRecordID = m.cfRecordID)
    ∧ ((updateMonitorApply m input fetched).cfRecordID = "" →
        (input.zoneID ≠ "" ∧ input.zoneID ≠ m.cfZoneID) ∨
        (input.domain ≠ "" ∧ input.domain ≠ m.cfDomain)) := by
  refine ⟨?_, scheduledSwitch_cfRecordID accounts env m targetIP h,
    restoreMonitor_cfRecordID accounts env m h, ?_⟩
  · cases isUp
    · simpa [checkMonitorStep] using
        handleFailure_cfRecordID accounts env m.applyDefaults
          (by simpa using h)
    · simpa [checkMonitorStep] using
        handleSuccess_cfRecordID accounts env m.applyDefaults
          (by simpa using h)
  · intro hres
    by_cases hz : input.zoneID ≠ "" ∧ input.zoneID ≠ m.cfZoneID
    · exact Or.inl hz
    by_cases hd : input.domain ≠ "" ∧ input.domain ≠ m.cfDomain
    · exact Or.inr hd
    exfalso
    simp only [updateMonitorApply] at hres
    simp [hz, hd] at hres
    by_cases hrid : input.recordID = ""
    · rw [if_pos hrid] at hres
      exact h hres
    · rw [if_neg hrid] at hres
      exact hrid hres

/-- Witness for the amended C5: a periodic check preserves the concrete
monitor's record handle. -/
theorem C5_witness :
    (checkMonitorStep sampleAccounts sampleEnv sampleMonitor
        true).monitor.cfRecordID = sampleMonitor.cfRecordID :=
  (C5_record_handle_amended sampleAccounts sampleEnv sampleMonitor true
    "3.3.3.3" sampleConfig none (by decide)).1
